import Mathlib

/-!
# Verification of the invoice validation pipeline

Shallow embedding of the document-processing repository's core:
the data model (`models.py`), the rule validator (`validator.py`) and
the combining smart validator (`smart_validator.py`).

Modelling conventions:
* Python `float` money/quantity fields are modelled as exact rationals `ℚ`;
  the tolerance literal `0.01` becomes `1/100` and `0.10` becomes `1/10`.
* Python truthiness of strings (`if not s`) is modelled as equality with `""`;
  truthiness of a float (`if not x`) as equality with `0`;
  truthiness of `Optional[str]` as the `none` / `some ""` / non-empty split.
* The validator's `processed_invoices` set is modelled as a `List String`
  with membership; `set.add` appends when the element is absent, which gives
  the same membership semantics.
* The numeric `f`-string renderings (`:.2f`, `:,.2f`, plain `str`) are
  modelled over `ℚ` with round-half-to-even to two decimal places, matching
  CPython's float formatting on the values that arise here.  No theorem
  depends on digit-level rendering except through string (in)equality of the
  generated messages.
* The OpenAI call in `SmartValidator._ai_analyze` is an external collaborator;
  its outcome is passed in as an `Except` value: `.error` models both the
  unreachable-collaborator and unparseable-output cases (the Python
  `except Exception` branch), `.ok` carries the parsed JSON object.
-/

namespace DocProc

attribute [local semireducible] Rat.add Rat.sub Rat.mul Rat.inv

/-- Python's builtin `abs()` on a float, over the exact-rational model. -/
def pyAbs (q : ℚ) : ℚ := if q < 0 then -q else q

theorem pyAbs_eq_abs (q : ℚ) : pyAbs q = |q| := by
  rw [pyAbs]
  split
  · rw [abs_of_neg]
    assumption
  · rw [abs_of_nonneg]
    linarith

/-- `models.LineItem`. -/
structure LineItem where
  description : String
  quantity : ℚ
  unit_price : ℚ
  amount : ℚ
deriving DecidableEq

/-- `models.Invoice`. -/
structure Invoice where
  invoice_number : String
  invoice_date : String
  due_date : String
  vendor_name : String
  vendor_abn : Option String
  customer_name : String
  line_items : List LineItem
  subtotal : ℚ
  tax_amount : ℚ
  total_amount : ℚ
  raw_text : String
deriving DecidableEq

/-- `models.ValidationResult`. -/
structure ValidationResult where
  is_valid : Bool
  issues : List String
  warnings : List String
deriving DecidableEq

/-! ## Numeric rendering (models Python format specs over `ℚ`) -/

/-- Round to the nearest integer, ties to even (CPython float formatting). -/
def roundHalfEven (q : ℚ) : ℤ :=
  let n := ⌊q⌋
  let r := q - (n : ℚ)
  if r < 1/2 then n
  else if 1/2 < r then n + 1
  else if n % 2 = 0 then n else n + 1

/-- Two-digit zero-padded rendering of a natural number below 100. -/
def pad2 (n : ℕ) : String :=
  (if n < 10 then "0" else "") ++ toString n

/-- Models the `:.2f` format spec. -/
def fmt2 (q : ℚ) : String :=
  let c := roundHalfEven (q * 100)
  (if c < 0 then "-" else "") ++ toString (c.natAbs / 100) ++ "." ++ pad2 (c.natAbs % 100)

/-- Insert a comma after every three characters of a reversed digit string. -/
def groupRev : List Char → List Char
  | a :: b :: c :: rest@(_ :: _) => a :: b :: c :: ',' :: groupRev rest
  | l => l

/-- Models the `:,.2f` format spec (thousands separators). -/
def fmtComma (q : ℚ) : String :=
  let c := roundHalfEven (q * 100)
  (if c < 0 then "-" else "") ++
    String.mk ((groupRev (toString (c.natAbs / 100)).data.reverse).reverse) ++
    "." ++ pad2 (c.natAbs % 100)

/-- Models the plain `f`-string rendering of the quantity float (`str(x)`):
integral doubles print with a trailing `.0`; other values are rendered as
exact rationals, a deterministic stand-in for the shortest-repr algorithm
(no theorem depends on this rendering beyond determinism). -/
def fmtQty (q : ℚ) : String :=
  if q.den = 1 then toString q.num ++ ".0" else toString q

/-! ## Validation rule constants (`InvoiceValidator.validation_rules`) -/

/-- `validation_rules["max_total"]`: flag invoices over $50k. -/
def maxTotal : ℚ := 50000

/-- `validation_rules["max_line_item"]`: flag individual items over $10k. -/
def maxLineItem : ℚ := 10000

/-! ## Message texts (the `f`-strings of `validator.py`) -/

/-- Check 2's issue text. -/
def dupMessage (n : String) : String :=
  "DUPLICATE: Invoice " ++ n ++ " already processed"

/-- Sum of the line item amounts (`calculated_subtotal`). -/
def calculatedSubtotal (inv : Invoice) : ℚ :=
  (inv.line_items.map LineItem.amount).sum

/-- `expected_tax = invoice.subtotal * 0.10`. -/
def expectedTax (inv : Invoice) : ℚ := inv.subtotal * (1/10)

/-- `expected_total = invoice.subtotal + invoice.tax_amount`. -/
def expectedTotal (inv : Invoice) : ℚ := inv.subtotal + inv.tax_amount

/-- Check 3's issue text. -/
def subtotalMsg (inv : Invoice) : String :=
  "Subtotal mismatch: Line items sum to $" ++ fmt2 (calculatedSubtotal inv) ++
    " but subtotal is $" ++ fmt2 inv.subtotal

/-- Check 4's warning text. -/
def taxMsg (inv : Invoice) : String :=
  "Tax amount $" ++ fmt2 inv.tax_amount ++ " doesn\x27t match expected 10% GST of $" ++
    fmt2 (expectedTax inv)

/-- Check 5's issue text. -/
def totalMsg (inv : Invoice) : String :=
  "Total mismatch: $" ++ fmt2 inv.subtotal ++ " + $" ++ fmt2 inv.tax_amount ++
    " = $" ++ fmt2 (expectedTotal inv) ++ ", but total shows $" ++ fmt2 inv.total_amount

/-- Check 6's warning text. -/
def highValueMsg (inv : Invoice) : String :=
  "HIGH VALUE: Total $" ++ fmtComma inv.total_amount ++ " exceeds $" ++
    fmtComma maxTotal ++ " threshold"

/-- Check 7's high-value warning text. -/
def highItemMsg (item : LineItem) : String :=
  "High value line item: \x27" ++ item.description ++ "\x27 = $" ++ fmtComma item.amount

/-- Check 7's math-error issue text. -/
def mathErrorMsg (item : LineItem) : String :=
  "Line item math error: \x27" ++ item.description ++ "\x27 - " ++ fmtQty item.quantity ++
    " x $" ++ fmt2 item.unit_price ++ " = $" ++ fmt2 (item.quantity * item.unit_price) ++
    ", but shows $" ++ fmt2 item.amount

/-- Check 8's warning text. -/
def abnMsg (abn : String) : String := "ABN format may be invalid: " ++ abn

/-! ## The rule validator (`validator.InvoiceValidator`) -/

/-- The validator's mutable state: the `processed_invoices` set. -/
structure InvoiceValidator where
  processed_invoices : List String
deriving DecidableEq

/-- Loop body of check 7 (`for item in invoice.line_items`): a high-value
warning, then the line-item math check, threading (issues, warnings). -/
def lineStep (p : List String × List String) (item : LineItem) :
    List String × List String :=
  let warnings := if item.amount > maxLineItem then p.2 ++ [highItemMsg item] else p.2
  let issues :=
    if pyAbs (item.quantity * item.unit_price - item.amount) > 1/100 then
      p.1 ++ [mathErrorMsg item]
    else p.1
  (issues, warnings)

/-- `InvoiceValidator.validate`, sequentially mirroring `validator.py`
lines 14–97.  Returns the `ValidationResult` together with the updated
duplicate-tracking state. -/
def validate (v : InvoiceValidator) (invoice : Invoice) :
    ValidationResult × InvoiceValidator :=
  let issues : List String := []
  let warnings : List String := []
  -- Check 1: Required fields
  let issues := if invoice.invoice_number = "" then issues ++ ["Missing invoice number"] else issues
  let issues := if invoice.vendor_name = "" then issues ++ ["Missing vendor name"] else issues
  let issues := if invoice.total_amount = 0 then issues ++ ["Missing total amount"] else issues
  -- Check 2: Duplicate detection
  let issues :=
    if invoice.invoice_number ∈ v.processed_invoices then
      issues ++ [dupMessage invoice.invoice_number]
    else issues
  let processed :=
    if invoice.invoice_number ∈ v.processed_invoices then v.processed_invoices
    else v.processed_invoices ++ [invoice.invoice_number]
  -- Check 3: Math validation
  let issues :=
    if pyAbs (calculatedSubtotal invoice - invoice.subtotal) > 1/100 then
      issues ++ [subtotalMsg invoice]
    else issues
  -- Check 4: Tax calculation (assuming 10% GST)
  let warnings :=
    if pyAbs (expectedTax invoice - invoice.tax_amount) > 1/100 then warnings ++ [taxMsg invoice]
    else warnings
  -- Check 5: Total calculation
  let issues :=
    if pyAbs (expectedTotal invoice - invoice.total_amount) > 1/100 then issues ++ [totalMsg invoice]
    else issues
  -- Check 6: High value warnings
  let warnings :=
    if invoice.total_amount > maxTotal then warnings ++ [highValueMsg invoice] else warnings
  -- Check 7: Individual line item checks
  let iw := invoice.line_items.foldl lineStep (issues, warnings)
  let issues := iw.1
  let warnings := iw.2
  -- Check 8: ABN format (Australian Business Number)
  let warnings :=
    match invoice.vendor_abn with
    | none => warnings
    | some abn =>
      if abn = "" then warnings
      else if (abn.data.filter Char.isDigit).length ≠ 11 then warnings ++ [abnMsg abn]
      else warnings
  -- Check 9: Date validation (basic)
  let warnings :=
    if invoice.invoice_date = "" ∨ invoice.due_date = "" then
      warnings ++ ["Missing date information"]
    else warnings
  ({ is_valid := issues.isEmpty, issues := issues, warnings := warnings },
   ⟨processed⟩)

/-- `InvoiceValidator.reset`. -/
def InvoiceValidator.reset (_ : InvoiceValidator) : InvoiceValidator := ⟨[]⟩

/-! ## Per-check contribution functions (used to state ordering claims) -/

/-- Check 1's contribution to issues. -/
def requiredFieldIssues (inv : Invoice) : List String :=
  (if inv.invoice_number = "" then ["Missing invoice number"] else []) ++
  (if inv.vendor_name = "" then ["Missing vendor name"] else []) ++
  (if inv.total_amount = 0 then ["Missing total amount"] else [])

/-- Check 2's contribution to issues. -/
def duplicateIssues (processed : List String) (inv : Invoice) : List String :=
  if inv.invoice_number ∈ processed then [dupMessage inv.invoice_number] else []

/-- Check 2's state update: register a new invoice number. -/
def dupRegister (processed : List String) (inv : Invoice) : List String :=
  if inv.invoice_number ∈ processed then processed
  else processed ++ [inv.invoice_number]

/-- Check 3's contribution to issues. -/
def subtotalIssues (inv : Invoice) : List String :=
  if pyAbs (calculatedSubtotal inv - inv.subtotal) > 1/100 then [subtotalMsg inv] else []

/-- Check 4's contribution to warnings. -/
def taxWarningList (inv : Invoice) : List String :=
  if pyAbs (expectedTax inv - inv.tax_amount) > 1/100 then [taxMsg inv] else []

/-- Check 5's contribution to issues. -/
def totalIssues (inv : Invoice) : List String :=
  if pyAbs (expectedTotal inv - inv.total_amount) > 1/100 then [totalMsg inv] else []

/-- Check 6's contribution to warnings. -/
def highValueWarningList (inv : Invoice) : List String :=
  if inv.total_amount > maxTotal then [highValueMsg inv] else []

/-- Check 7's per-item contribution to issues. -/
def lineItemMathIssues (item : LineItem) : List String :=
  if pyAbs (item.quantity * item.unit_price - item.amount) > 1/100 then [mathErrorMsg item] else []

/-- Check 7's per-item contribution to warnings. -/
def lineItemHighWarnings (item : LineItem) : List String :=
  if item.amount > maxLineItem then [highItemMsg item] else []

/-- Check 8's contribution to warnings. -/
def abnWarningList (inv : Invoice) : List String :=
  match inv.vendor_abn with
  | none => []
  | some abn =>
    if abn = "" then []
    else if (abn.data.filter Char.isDigit).length ≠ 11 then [abnMsg abn]
    else []

/-- Check 9's contribution to warnings. -/
def dateWarningList (inv : Invoice) : List String :=
  if inv.invoice_date = "" ∨ inv.due_date = "" then ["Missing date information"] else []

/-- All issues, in check order 1, 2, 3, 5, 7. -/
def validateIssues (processed : List String) (inv : Invoice) : List String :=
  requiredFieldIssues inv ++ duplicateIssues processed inv ++ subtotalIssues inv ++
    totalIssues inv ++ inv.line_items.flatMap lineItemMathIssues

/-- All warnings, in check order 4, 6, 7, 8, 9. -/
def validateWarnings (inv : Invoice) : List String :=
  taxWarningList inv ++ highValueWarningList inv ++
    inv.line_items.flatMap lineItemHighWarnings ++ abnWarningList inv ++ dateWarningList inv

/-! ## The smart validator (`smart_validator.SmartValidator`) -/

/-- `list(dict.fromkeys(l))`: drop later occurrences, keeping first-occurrence
order; `seen` is the set of keys already emitted. -/
def dedupAux (seen : List String) : List String → List String
  | [] => []
  | x :: xs => if x ∈ seen then dedupAux seen xs else x :: dedupAux (x :: seen) xs

/-- `list(dict.fromkeys(l))`. -/
def dedupKeys (l : List String) : List String := dedupAux [] l

/-- The result combiner of `SmartValidator.validate` (lines 27–40). -/
def combine (rule_validation ai_validation : ValidationResult) : ValidationResult :=
  let combined_issues := dedupKeys (rule_validation.issues ++ ai_validation.issues)
  let combined_warnings := dedupKeys (rule_validation.warnings ++ ai_validation.warnings)
  { is_valid := combined_issues.isEmpty,
    issues := combined_issues,
    warnings := combined_warnings }

/-- The JSON object the classifier collaborator returns; either key may be
absent (`analysis.get(key, [])`). -/
structure AnalysisJson where
  critical_issues : Option (List String)
  warnings : Option (List String)
deriving DecidableEq

/-- `SmartValidator._ai_analyze`, as a function of the collaborator outcome:
`.error` is the `except Exception` branch (collaborator unreachable or its
output unparseable), which degrades to the empty result. -/
def aiAnalyze (response : Except String AnalysisJson) : ValidationResult :=
  match response with
  | .ok analysis =>
    let issues := analysis.critical_issues.getD []
    let warnings := analysis.warnings.getD []
    { is_valid := issues.isEmpty, issues := issues, warnings := warnings }
  | .error _ => { is_valid := true, issues := [], warnings := [] }

/-- `SmartValidator.validate`: rule validation first, then the AI pass,
then the combiner. -/
def smartValidate (v : InvoiceValidator) (response : Except String AnalysisJson)
    (invoice : Invoice) : ValidationResult × InvoiceValidator :=
  let rv := validate v invoice
  let ai_validation := aiAnalyze response
  (combine rv.1 ai_validation, rv.2)

/-! ## Decomposition of `validate` into per-check contributions -/

theorem ite_append_eq {c : Prop} [Decidable c] (X y : List String) :
    (if c then X ++ y else X) = X ++ (if c then y else []) := by
  split <;> simp

theorem foldl_lineStep (items : List LineItem) (a b : List String) :
    items.foldl lineStep (a, b) =
      (a ++ items.flatMap lineItemMathIssues, b ++ items.flatMap lineItemHighWarnings) := by
  induction items generalizing a b with
  | nil => simp
  | cons it rest ih =>
    rw [List.foldl_cons, List.flatMap_cons, List.flatMap_cons]
    show rest.foldl lineStep (lineStep (a, b) it) = _
    rw [lineStep]
    simp only []
    rw [ih]
    rw [lineItemMathIssues, lineItemHighWarnings]
    simp only [Prod.mk.injEq]
    refine ⟨?_, ?_⟩ <;> (split <;> simp)

theorem ite_else_append (c : Prop) [Decidable c] (X z : List String) :
    (if c then X else X ++ z) = X ++ (if c then [] else z) := by
  split <;> simp

/-- `validate` equals the concatenation, in source order, of the per-check
contribution lists, together with the duplicate-set update. -/
theorem validate_decomp (v : InvoiceValidator) (inv : Invoice) :
    validate v inv =
      ({ is_valid := (validateIssues v.processed_invoices inv).isEmpty,
         issues := validateIssues v.processed_invoices inv,
         warnings := validateWarnings inv },
       ⟨dupRegister v.processed_invoices inv⟩) := by
  rcases habn : inv.vendor_abn with _ | abn <;>
  · rw [validate]
    simp only [habn, foldl_lineStep, ite_append_eq, ite_else_append, List.nil_append]
    rw [validateIssues, validateWarnings, requiredFieldIssues, duplicateIssues, subtotalIssues,
      taxWarningList, totalIssues, highValueWarningList, abnWarningList, dateWarningList,
      dupRegister]
    simp only [habn, List.append_assoc, List.append_nil, ite_else_append]

theorem validate_issues_eq (v : InvoiceValidator) (inv : Invoice) :
    (validate v inv).1.issues = validateIssues v.processed_invoices inv := by
  rw [validate_decomp]

theorem validate_warnings_eq (v : InvoiceValidator) (inv : Invoice) :
    (validate v inv).1.warnings = validateWarnings inv := by
  rw [validate_decomp]

theorem validate_is_valid_eq (v : InvoiceValidator) (inv : Invoice) :
    (validate v inv).1.is_valid = (validate v inv).1.issues.isEmpty := by
  rw [validate_decomp]

theorem validate_state_eq (v : InvoiceValidator) (inv : Invoice) :
    (validate v inv).2 = ⟨dupRegister v.processed_invoices inv⟩ := by
  rw [validate_decomp]

/-! ## Properties of `dict.fromkeys` deduplication -/

theorem mem_dedupAux (a : String) (l seen : List String) :
    a ∈ dedupAux seen l ↔ a ∈ l ∧ a ∉ seen := by
  induction l generalizing seen with
  | nil => simp [dedupAux]
  | cons x xs ih =>
    rw [dedupAux]
    split
    · rw [ih]
      constructor
      · exact fun h => ⟨List.mem_cons_of_mem _ h.1, h.2⟩
      · rintro ⟨hx, hs⟩
        rcases List.mem_cons.mp hx with rfl | h
        · exact absurd (by assumption) hs
        · exact ⟨h, hs⟩
    · simp only [List.mem_cons, ih, List.mem_cons, not_or]
      constructor
      · rintro (rfl | ⟨h1, h2, h3⟩)
        · exact ⟨Or.inl rfl, by assumption⟩
        · exact ⟨Or.inr h1, h3⟩
      · rintro ⟨rfl | h1, h2⟩
        · exact Or.inl rfl
        · by_cases hax : a = x
          · exact Or.inl hax
          · exact Or.inr ⟨h1, hax, h2⟩

theorem nodup_dedupAux (l seen : List String) : (dedupAux seen l).Nodup := by
  induction l generalizing seen with
  | nil => simp [dedupAux]
  | cons x xs ih =>
    rw [dedupAux]
    split
    · exact ih seen
    · refine List.Nodup.cons ?_ (ih (x :: seen))
      intro hmem
      exact ((mem_dedupAux x xs (x :: seen)).mp hmem).2 (List.mem_cons_self x seen)

theorem dedupAux_sublist (l seen : List String) : (dedupAux seen l).Sublist l := by
  induction l generalizing seen with
  | nil => exact List.Sublist.refl []
  | cons x xs ih =>
    rw [dedupAux]
    split
    · exact (ih seen).cons x
    · exact (ih (x :: seen)).cons₂ x

theorem dedupAux_eq_self (l : List String) :
    ∀ seen, l.Nodup → (∀ a ∈ l, a ∉ seen) → dedupAux seen l = l := by
  induction l with
  | nil => intro seen _ _; rfl
  | cons x xs ih =>
    intro seen hnd hdisj
    rw [dedupAux]
    rw [if_neg (hdisj x (List.mem_cons_self x xs))]
    rw [ih (x :: seen) (List.Nodup.of_cons hnd)]
    intro a ha
    rw [List.mem_cons, not_or]
    exact ⟨fun h => (List.nodup_cons.mp hnd).1 (h ▸ ha), hdisj a (List.mem_cons_of_mem _ ha)⟩

theorem mem_dedupKeys (a : String) (l : List String) : a ∈ dedupKeys l ↔ a ∈ l := by
  rw [dedupKeys, mem_dedupAux]
  simp

theorem nodup_dedupKeys (l : List String) : (dedupKeys l).Nodup := nodup_dedupAux l []

theorem dedupKeys_sublist (l : List String) : (dedupKeys l).Sublist l := dedupAux_sublist l []

theorem dedupKeys_eq_self (l : List String) (h : l.Nodup) : dedupKeys l = l :=
  dedupAux_eq_self l [] h (by simp)

theorem dedupKeys_eq_nil_iff (l : List String) : dedupKeys l = [] ↔ l = [] := by
  cases l with
  | nil => simp [dedupKeys, dedupAux]
  | cons x xs =>
    rw [dedupKeys, dedupAux]
    simp

theorem isEmpty_dedupKeys (l : List String) : (dedupKeys l).isEmpty = l.isEmpty := by
  cases l with
  | nil => rfl
  | cons x xs =>
    rw [dedupKeys, dedupAux]
    simp

/-! ## Message families are distinguished by their first two characters -/

theorem data_append (s t : String) : (s ++ t).data = s.data ++ t.data := rfl

theorem take2_ne {s t : String} (h : s.data.take 2 ≠ t.data.take 2) : s ≠ t := by
  intro he
  exact h (he ▸ rfl)

theorem dupMessage_take2 (n : String) :
    (dupMessage n).data.take 2 = [Char.ofNat 68, Char.ofNat 85] := rfl

theorem subtotalMsg_take2 (inv : Invoice) :
    (subtotalMsg inv).data.take 2 = [Char.ofNat 83, Char.ofNat 117] := rfl

theorem taxMsg_take2 (inv : Invoice) :
    (taxMsg inv).data.take 2 = [Char.ofNat 84, Char.ofNat 97] := rfl

theorem totalMsg_take2 (inv : Invoice) :
    (totalMsg inv).data.take 2 = [Char.ofNat 84, Char.ofNat 111] := rfl

theorem mathErrorMsg_take2 (item : LineItem) :
    (mathErrorMsg item).data.take 2 = [Char.ofNat 76, Char.ofNat 105] := rfl

theorem abnMsg_take2 (abn : String) :
    (abnMsg abn).data.take 2 = [Char.ofNat 65, Char.ofNat 66] := rfl

theorem mem_requiredFieldIssues_take2 (inv : Invoice) (s : String)
    (h : s ∈ requiredFieldIssues inv) :
    s.data.take 2 = [Char.ofNat 77, Char.ofNat 105] := by
  rw [requiredFieldIssues] at h
  simp only [List.mem_append] at h
  rcases h with (h | h) | h <;>
  · revert h
    split <;> simp_all

theorem mem_subtotalIssues_take2 (inv : Invoice) (s : String)
    (h : s ∈ subtotalIssues inv) :
    s.data.take 2 = [Char.ofNat 83, Char.ofNat 117] := by
  rw [subtotalIssues] at h
  revert h
  split <;> simp_all
  exact fun _ => subtotalMsg_take2 inv

theorem mem_totalIssues_take2 (inv : Invoice) (s : String)
    (h : s ∈ totalIssues inv) :
    s.data.take 2 = [Char.ofNat 84, Char.ofNat 111] := by
  rw [totalIssues] at h
  revert h
  split <;> simp_all
  exact fun _ => totalMsg_take2 inv

theorem mem_mathIssues_take2 (items : List LineItem) (s : String)
    (h : s ∈ items.flatMap lineItemMathIssues) :
    s.data.take 2 = [Char.ofNat 76, Char.ofNat 105] := by
  rw [List.mem_flatMap] at h
  obtain ⟨item, _, hs⟩ := h
  rw [lineItemMathIssues] at hs
  revert hs
  split <;> simp_all
  exact fun _ => mathErrorMsg_take2 item

theorem mem_duplicateIssues_take2 (processed : List String) (inv : Invoice) (s : String)
    (h : s ∈ duplicateIssues processed inv) :
    s.data.take 2 = [Char.ofNat 68, Char.ofNat 85] := by
  rw [duplicateIssues] at h
  revert h
  split <;> simp_all
  exact fun _ => dupMessage_take2 inv.invoice_number

/-- Any string in the issues list of `validate` starts with one of the five
issue-family two-character prefixes `Mi`, `DU`, `Su`, `To`, `Li`. -/
theorem mem_validateIssues_take2 (processed : List String) (inv : Invoice) (s : String)
    (h : s ∈ validateIssues processed inv) :
    s.data.take 2 = [Char.ofNat 77, Char.ofNat 105] ∨
    s.data.take 2 = [Char.ofNat 68, Char.ofNat 85] ∨
    s.data.take 2 = [Char.ofNat 83, Char.ofNat 117] ∨
    s.data.take 2 = [Char.ofNat 84, Char.ofNat 111] ∨
    s.data.take 2 = [Char.ofNat 76, Char.ofNat 105] := by
  rw [validateIssues] at h
  simp only [List.mem_append] at h
  rcases h with ((((h | h) | h) | h) | h)
  · exact Or.inl (mem_requiredFieldIssues_take2 inv s h)
  · exact Or.inr (Or.inl (mem_duplicateIssues_take2 processed inv s h))
  · exact Or.inr (Or.inr (Or.inl (mem_subtotalIssues_take2 inv s h)))
  · exact Or.inr (Or.inr (Or.inr (Or.inl (mem_totalIssues_take2 inv s h))))
  · exact Or.inr (Or.inr (Or.inr (Or.inr (mem_mathIssues_take2 inv.line_items s h))))

/-- A tax warning is never among the issues of `validate`. -/
theorem taxMsg_not_mem_issues (v : InvoiceValidator) (inv inv2 : Invoice) :
    taxMsg inv2 ∉ (validate v inv).1.issues := by
  rw [validate_issues_eq]
  intro h
  have h2 := mem_validateIssues_take2 v.processed_invoices inv _ h
  rw [taxMsg_take2] at h2
  rcases h2 with h2 | h2 | h2 | h2 | h2 <;> simp at h2

/-- An ABN warning is never among the issues of `validate`. -/
theorem abnMsg_not_mem_issues (v : InvoiceValidator) (inv : Invoice) (abn : String) :
    abnMsg abn ∉ (validate v inv).1.issues := by
  rw [validate_issues_eq]
  intro h
  have h2 := mem_validateIssues_take2 v.processed_invoices inv _ h
  rw [abnMsg_take2] at h2
  rcases h2 with h2 | h2 | h2 | h2 | h2 <;> simp at h2

/-- A high-value warning is never among the issues of `validate`. -/
theorem highValueMsg_not_mem_issues (v : InvoiceValidator) (inv inv2 : Invoice) :
    highValueMsg inv2 ∉ (validate v inv).1.issues := by
  rw [validate_issues_eq]
  intro h
  have h2 := mem_validateIssues_take2 v.processed_invoices inv _ h
  have h3 : (highValueMsg inv2).data.take 2 = [Char.ofNat 72, Char.ofNat 73] := rfl
  rw [h3] at h2
  rcases h2 with h2 | h2 | h2 | h2 | h2 <;> simp at h2

/-- When the invoice number is not yet tracked, no duplicate message at all
appears among the issues of `validate`. -/
theorem dupMessage_not_mem_issues (v : InvoiceValidator) (inv : Invoice) (n : String)
    (hfresh : inv.invoice_number ∉ v.processed_invoices) :
    dupMessage n ∉ (validate v inv).1.issues := by
  rw [validate_issues_eq, validateIssues]
  rw [duplicateIssues, if_neg hfresh]
  simp only [List.append_nil, List.nil_append, List.mem_append]
  rintro (((h | h) | h) | h)
  · have h2 := mem_requiredFieldIssues_take2 inv _ h
    rw [dupMessage_take2] at h2
    simp at h2
  · have h2 := mem_subtotalIssues_take2 inv _ h
    rw [dupMessage_take2] at h2
    simp at h2
  · have h2 := mem_totalIssues_take2 inv _ h
    rw [dupMessage_take2] at h2
    simp at h2
  · have h2 := mem_mathIssues_take2 inv.line_items _ h
    rw [dupMessage_take2] at h2
    simp at h2

/-- A high-value-line-item warning is never among the issues of `validate`. -/
theorem highItemMsg_not_mem_issues (v : InvoiceValidator) (inv : Invoice) (item : LineItem) :
    highItemMsg item ∉ (validate v inv).1.issues := by
  rw [validate_issues_eq]
  intro h
  have h2 := mem_validateIssues_take2 v.processed_invoices inv _ h
  have h3 : (highItemMsg item).data.take 2 = [Char.ofNat 72, Char.ofNat 105] := rfl
  rw [h3] at h2
  rcases h2 with h2 | h2 | h2 | h2 | h2 <;> simp at h2

/-! ## Concrete fixtures for witnesses and counterexamples -/

/-- A line item whose math is exact. -/
def baseItem : LineItem :=
  { description := "Software License", quantity := 1, unit_price := 100, amount := 100 }

/-- A fully consistent invoice: every check passes, with fresh state the
result has no issues and no warnings. -/
def baseInvoice : Invoice :=
  { invoice_number := "INV-1", invoice_date := "2024-01-01", due_date := "2024-02-01",
    vendor_name := "Acme Pty Ltd", vendor_abn := none, customer_name := "Customer",
    line_items := [baseItem], subtotal := 100, tax_amount := 10, total_amount := 110,
    raw_text := "Invoice INV-1" }

/-- A line item violating `quantity * unit_price = amount`. -/
def badItem : LineItem :=
  { description := "Widget", quantity := 1, unit_price := 2, amount := 5 }

/-- Two identical faulty line items: the rule validator emits the same
math-error issue twice in one call. -/
def dupItemInvoice : Invoice :=
  { baseInvoice with
    line_items := [badItem, badItem]
    subtotal := 10
    tax_amount := 1
    total_amount := 11 }

/-- Invoice whose `vendor_abn` is the empty string (present but falsy). -/
def abnEmptyInvoice : Invoice := { baseInvoice with vendor_abn := some "" }

/-- Invoice carrying a well-formed 11-digit ABN. -/
def abnGoodInvoice : Invoice := { baseInvoice with vendor_abn := some "12 345 678 901" }

/-- Invoice carrying a 3-digit ABN. -/
def abnBadInvoice : Invoice := { baseInvoice with vendor_abn := some "123" }

/-- Invoice with no invoice number. -/
def noNumberInvoice : Invoice := { baseInvoice with invoice_number := "" }

/-! ## The claims -/

/-- C1 (counterexample): with the classifier unavailable, the combined result
does NOT always equal the rule-validator result unchanged — two identical
faulty line items make the rule validator emit the same issue twice, and the
combiner's deduplication collapses them. -/
theorem claim_c1_degrade_cex :
    (validate ⟨[]⟩ dupItemInvoice).1.issues.length = 2 ∧
    (smartValidate ⟨[]⟩ (Except.error "connection refused") dupItemInvoice).1.issues.length = 1 ∧
    (smartValidate ⟨[]⟩ (Except.error "connection refused") dupItemInvoice).1 ≠
      (validate ⟨[]⟩ dupItemInvoice).1 := by
  decide

/-- C1 (amended): if the semantic classifier collaborator fails, the
classifier step returns the empty result (`is_valid = true`, no issues, no
warnings`) and, the failure being absorbed, the combined result is the
rule-validator result with its issues and warnings deduplicated preserving
first occurrence (hence identical validity and identical state); it equals
the rule-validator result unchanged whenever the rule result's lists have no
internal duplicates. -/
theorem claim_c1_degrade_safe (v : InvoiceValidator) (inv : Invoice) (e : String) :
    aiAnalyze (Except.error e) = ⟨true, [], []⟩ ∧
    (smartValidate v (Except.error e) inv).1.issues = dedupKeys (validate v inv).1.issues ∧
    (smartValidate v (Except.error e) inv).1.warnings =
      dedupKeys (validate v inv).1.warnings ∧
    (smartValidate v (Except.error e) inv).1.is_valid = (validate v inv).1.is_valid ∧
    (smartValidate v (Except.error e) inv).2 = (validate v inv).2 ∧
    ((validate v inv).1.issues.Nodup → (validate v inv).1.warnings.Nodup →
      (smartValidate v (Except.error e) inv).1 = (validate v inv).1) := by
  have hb := validate_is_valid_eq v inv
  rcases hrv : validate v inv with ⟨⟨b, is, ws⟩, st⟩
  rw [hrv] at hb
  simp only at hb
  refine ⟨rfl, ?_, ?_, ?_, ?_, ?_⟩
  · simp only [smartValidate, hrv, aiAnalyze, combine, List.append_nil]
  · simp only [smartValidate, hrv, aiAnalyze, combine, List.append_nil]
  · simp only [smartValidate, hrv, aiAnalyze, combine, List.append_nil]
    rw [hb, isEmpty_dedupKeys]
  · simp only [smartValidate, hrv]
  · intro hnis hnws
    simp only at hnis hnws
    simp only [smartValidate, hrv, aiAnalyze, combine, List.append_nil]
    rw [dedupKeys_eq_self is hnis, dedupKeys_eq_self ws hnws, hb]

/-- C1 witness: a concrete clean invoice with the collaborator failing. -/
theorem claim_c1_degrade_safe_witness :
    aiAnalyze (Except.error "timeout") = ⟨true, [], []⟩ ∧
    (smartValidate ⟨[]⟩ (Except.error "timeout") baseInvoice).1 =
      (validate ⟨[]⟩ baseInvoice).1 := by
  have h := claim_c1_degrade_safe ⟨[]⟩ baseInvoice "timeout"
  exact ⟨h.1, h.2.2.2.2.2 (by decide) (by decide)⟩

/-- C2: for the rule validator and for the combined result alike,
`is_valid` is true exactly when the issues list is empty (warnings play no
role; for the combined result it is recomputed from the combined issues). -/
theorem claim_c2_is_valid_iff (v : InvoiceValidator) (inv : Invoice)
    (r s : ValidationResult) :
    ((validate v inv).1.is_valid = true ↔ (validate v inv).1.issues = []) ∧
    ((combine r s).is_valid = true ↔ (combine r s).issues = []) := by
  constructor
  · rw [validate_is_valid_eq]
    exact List.isEmpty_iff
  · exact List.isEmpty_iff

/-- C3: a not-yet-seen invoice number is never reported as a duplicate and is
registered; a seen number is reported with the DUPLICATE issue and the
tracked set is left unchanged; after any call the number is tracked. -/
theorem claim_c3_duplicate_detection (v : InvoiceValidator) (inv : Invoice) :
    (inv.invoice_number ∉ v.processed_invoices →
      (∀ n, dupMessage n ∉ (validate v inv).1.issues) ∧
      (validate v inv).2.processed_invoices = v.processed_invoices ++ [inv.invoice_number]) ∧
    (inv.invoice_number ∈ v.processed_invoices →
      dupMessage inv.invoice_number ∈ (validate v inv).1.issues ∧
      (validate v inv).2 = v) ∧
    inv.invoice_number ∈ (validate v inv).2.processed_invoices := by
  refine ⟨fun hfresh => ⟨fun n => dupMessage_not_mem_issues v inv n hfresh, ?_⟩,
    fun hseen => ⟨?_, ?_⟩, ?_⟩
  · rw [validate_state_eq]
    exact if_neg hfresh
  · rw [validate_issues_eq, validateIssues]
    simp only [List.mem_append]
    refine Or.inl (Or.inl (Or.inl (Or.inr ?_)))
    rw [duplicateIssues, if_pos hseen]
    exact List.mem_singleton.mpr rfl
  · rw [validate_state_eq, dupRegister, if_pos hseen]
  · rw [validate_state_eq]
    simp only [dupRegister]
    split
    · assumption
    · simp

/-- C3 witness: first and second call with number INV-1. -/
theorem claim_c3_duplicate_detection_witness :
    (dupMessage "INV-1" ∉ (validate ⟨[]⟩ baseInvoice).1.issues ∧
      (validate ⟨[]⟩ baseInvoice).2.processed_invoices = ["INV-1"]) ∧
    (dupMessage "INV-1" ∈ (validate ⟨["INV-1"]⟩ baseInvoice).1.issues ∧
      (validate ⟨["INV-1"]⟩ baseInvoice).2 = ⟨["INV-1"]⟩) := by
  have h1 := (claim_c3_duplicate_detection ⟨[]⟩ baseInvoice).1 (by decide)
  have h2 := (claim_c3_duplicate_detection ⟨["INV-1"]⟩ baseInvoice).2.1 (by decide)
  exact ⟨⟨h1.1 "INV-1", h1.2⟩, h2⟩

/-- C4: each arithmetic reconciliation tolerance is inclusive at exactly
0.01 — a discrepancy of 1/100 yields no finding, 2/100 yields one, for the
subtotal, tax, total and per-line-item checks. -/
theorem claim_c4_tolerance_boundary (inv : Invoice) (item : LineItem) :
    (pyAbs (calculatedSubtotal inv - inv.subtotal) = 1/100 → subtotalIssues inv = []) ∧
    (pyAbs (calculatedSubtotal inv - inv.subtotal) = 2/100 → subtotalIssues inv ≠ []) ∧
    (pyAbs (expectedTax inv - inv.tax_amount) = 1/100 → taxWarningList inv = []) ∧
    (pyAbs (expectedTax inv - inv.tax_amount) = 2/100 → taxWarningList inv ≠ []) ∧
    (pyAbs (expectedTotal inv - inv.total_amount) = 1/100 → totalIssues inv = []) ∧
    (pyAbs (expectedTotal inv - inv.total_amount) = 2/100 → totalIssues inv ≠ []) ∧
    (pyAbs (item.quantity * item.unit_price - item.amount) = 1/100 →
      lineItemMathIssues item = []) ∧
    (pyAbs (item.quantity * item.unit_price - item.amount) = 2/100 →
      lineItemMathIssues item ≠ []) := by
  refine ⟨?_, ?_, ?_, ?_, ?_, ?_, ?_, ?_⟩ <;> intro h <;>
    simp only [subtotalIssues, taxWarningList, totalIssues, lineItemMathIssues, h] <;>
    norm_num

/-- C4 witness: exact 0.01 and 0.02 discrepancies for each of the four
checks, on concrete invoices and line items. -/
theorem claim_c4_tolerance_boundary_witness :
    subtotalIssues { baseInvoice with subtotal := 100 + 1/100 } = [] ∧
    subtotalIssues { baseInvoice with subtotal := 100 + 2/100 } ≠ [] ∧
    taxWarningList { baseInvoice with tax_amount := 10 + 1/100 } = [] ∧
    taxWarningList { baseInvoice with tax_amount := 10 + 2/100 } ≠ [] ∧
    totalIssues { baseInvoice with total_amount := 110 + 1/100 } = [] ∧
    totalIssues { baseInvoice with total_amount := 110 + 2/100 } ≠ [] ∧
    lineItemMathIssues { baseItem with amount := 100 + 1/100 } = [] ∧
    lineItemMathIssues { baseItem with amount := 100 + 2/100 } ≠ [] := by
  refine ⟨(claim_c4_tolerance_boundary _ baseItem).1 (by decide),
    (claim_c4_tolerance_boundary _ baseItem).2.1 (by decide),
    (claim_c4_tolerance_boundary _ baseItem).2.2.1 (by decide),
    (claim_c4_tolerance_boundary _ baseItem).2.2.2.1 (by decide),
    (claim_c4_tolerance_boundary _ baseItem).2.2.2.2.1 (by decide),
    (claim_c4_tolerance_boundary _ baseItem).2.2.2.2.2.1 (by decide),
    (claim_c4_tolerance_boundary baseInvoice _).2.2.2.2.2.2.1 (by decide),
    (claim_c4_tolerance_boundary baseInvoice _).2.2.2.2.2.2.2 (by decide)⟩

/-- C5: the combiner concatenates rule issues then semantic issues and
deduplicates preserving first occurrence (likewise warnings): the result is
a duplicate-free sublist of the concatenation with the same members; on the
spec's example it gives A, B, C and validity false. -/
theorem claim_c5_combiner_dedup (r s : ValidationResult) :
    (combine r s).issues = dedupKeys (r.issues ++ s.issues) ∧
    (combine r s).warnings = dedupKeys (r.warnings ++ s.warnings) ∧
    List.Sublist (combine r s).issues (r.issues ++ s.issues) ∧
    List.Sublist (combine r s).warnings (r.warnings ++ s.warnings) ∧
    (∀ a, a ∈ (combine r s).issues ↔ a ∈ r.issues ++ s.issues) ∧
    (combine r s).issues.Nodup ∧
    (combine r s).warnings.Nodup ∧
    (combine ⟨false, ["A", "B"], []⟩ ⟨false, ["B", "C"], []⟩).issues = ["A", "B", "C"] ∧
    (combine ⟨false, ["A", "B"], []⟩ ⟨false, ["B", "C"], []⟩).is_valid = false := by
  exact ⟨rfl, rfl, dedupKeys_sublist _, dedupKeys_sublist _,
    fun a => mem_dedupKeys a _, nodup_dedupKeys _, nodup_dedupKeys _,
    by decide, by decide⟩

/-- C6: a tax mismatch beyond the tolerance produces exactly the tax warning
(whose text carries both the stated tax and the expected 10% GST amount),
never an issue; with no issue-producing check firing, validity stays true. -/
theorem claim_c6_tax_warning (v : InvoiceValidator) (inv : Invoice)
    (h : pyAbs (expectedTax inv - inv.tax_amount) > 1/100) :
    taxWarningList inv = [taxMsg inv] ∧
    taxMsg inv ∈ (validate v inv).1.warnings ∧
    (fmt2 inv.tax_amount).data <:+: (taxMsg inv).data ∧
    (fmt2 (expectedTax inv)).data <:+: (taxMsg inv).data ∧
    taxMsg inv ∉ (validate v inv).1.issues ∧
    (validateIssues v.processed_invoices inv = [] → (validate v inv).1.is_valid = true) := by
  refine ⟨if_pos h, ?_, ?_, ?_, taxMsg_not_mem_issues v inv inv, ?_⟩
  · rw [validate_warnings_eq, validateWarnings]
    simp only [List.mem_append]
    refine Or.inl (Or.inl (Or.inl (Or.inl ?_)))
    rw [taxWarningList, if_pos h]
    exact List.mem_singleton.mpr rfl
  · exact ⟨"Tax amount $".data,
      (" doesn\x27t match expected 10% GST of $" ++ fmt2 (expectedTax inv)).data,
      by simp [taxMsg, data_append, List.append_assoc]⟩
  · exact ⟨("Tax amount $" ++ fmt2 inv.tax_amount ++
        " doesn\x27t match expected 10% GST of $").data, [],
      by simp [taxMsg, data_append, List.append_assoc]⟩
  · intro hempty
    rw [validate_is_valid_eq, validate_issues_eq, hempty]
    rfl

/-- C6 witness: stated tax 20 against expected 10 (subtotal 100), with the
total still consistent so no issue fires. -/
theorem claim_c6_tax_warning_witness :
    taxWarningList { baseInvoice with tax_amount := 20, total_amount := 120 } =
      [taxMsg { baseInvoice with tax_amount := 20, total_amount := 120 }] ∧
    (validate ⟨[]⟩ { baseInvoice with tax_amount := 20, total_amount := 120 }).1.is_valid
      = true := by
  have h := claim_c6_tax_warning ⟨[]⟩
    { baseInvoice with tax_amount := 20, total_amount := 120 } (by decide)
  exact ⟨h.1, h.2.2.2.2.2 (by decide)⟩

/-- C7: the high-value thresholds are strict (no warning at exactly 50,000
for the total or exactly 10,000 for an item; warning strictly above), and
high-value warnings never appear among issues, `is_valid` being computed
from issues alone. -/
theorem claim_c7_high_value_thresholds (v : InvoiceValidator) (inv : Invoice)
    (item : LineItem) :
    (inv.total_amount = 50000 → highValueWarningList inv = []) ∧
    (inv.total_amount = 50000 + 1/100 → highValueWarningList inv = [highValueMsg inv]) ∧
    (item.amount = 10000 → lineItemHighWarnings item = []) ∧
    (item.amount > 10000 → lineItemHighWarnings item = [highItemMsg item]) ∧
    (validate v inv).1.is_valid = (validate v inv).1.issues.isEmpty ∧
    highValueMsg inv ∉ (validate v inv).1.issues ∧
    highItemMsg item ∉ (validate v inv).1.issues := by
  refine ⟨?_, ?_, ?_, ?_, validate_is_valid_eq v inv,
    highValueMsg_not_mem_issues v inv inv, highItemMsg_not_mem_issues v inv item⟩
  · intro h
    rw [highValueWarningList, if_neg]
    rw [h, maxTotal]
    norm_num
  · intro h
    rw [highValueWarningList, if_pos]
    rw [h, maxTotal]
    norm_num
  · intro h
    rw [lineItemHighWarnings, if_neg]
    rw [h, maxLineItem]
    norm_num
  · intro h
    rw [lineItemHighWarnings, if_pos]
    rw [maxLineItem]
    exact h

/-- C7 witness: totals of exactly 50,000.00 and 50,000.01, an item of
exactly 10,000.00 and one of 10,000.01. -/
theorem claim_c7_high_value_thresholds_witness :
    highValueWarningList { baseInvoice with total_amount := 50000 } = [] ∧
    highValueWarningList { baseInvoice with total_amount := 50000 + 1/100 } =
      [highValueMsg { baseInvoice with total_amount := 50000 + 1/100 }] ∧
    lineItemHighWarnings { baseItem with amount := 10000 } = [] ∧
    lineItemHighWarnings { baseItem with amount := 10000 + 1/100 } =
      [highItemMsg { baseItem with amount := 10000 + 1/100 }] := by
  exact ⟨(claim_c7_high_value_thresholds ⟨[]⟩ _ baseItem).1 rfl,
    (claim_c7_high_value_thresholds ⟨[]⟩ _ baseItem).2.1 rfl,
    (claim_c7_high_value_thresholds ⟨[]⟩ baseInvoice _).2.2.1 rfl,
    (claim_c7_high_value_thresholds ⟨[]⟩ baseInvoice _).2.2.2.1 (by norm_num)⟩

/-- C8 (counterexample): an invoice whose `vendor_abn` is the empty string
has the ABN present with 0 digits (≠ 11) after stripping, yet the validator
emits no warning at all — Python truthiness treats `""` like an absent ABN,
so "warning exactly when the digit count is not 11" fails. -/
theorem claim_c8_abn_cex :
    abnEmptyInvoice.vendor_abn = some "" ∧
    ¬(("".data.filter Char.isDigit).length = 11) ∧
    abnWarningList abnEmptyInvoice = [] ∧
    (validate ⟨[]⟩ abnEmptyInvoice).1.warnings = [] := by
  refine ⟨rfl, by decide, rfl, ?_⟩
  rw [validate_warnings_eq]
  decide

/-- C8 (amended): for every invoice whose `vendor_abn` is present AND
non-empty, the validator strips non-digits and warns exactly when the digit
count differs from 11 (never an issue); a null ABN — and, by truthiness,
an empty-string ABN — produces no warning from this check. -/
theorem claim_c8_abn_format (v : InvoiceValidator) (inv : Invoice) (abn : String)
    (h : inv.vendor_abn = some abn) (hne : abn ≠ "") :
    abnWarningList inv =
      (if (abn.data.filter Char.isDigit).length = 11 then [] else [abnMsg abn]) ∧
    abnMsg abn ∉ (validate v inv).1.issues ∧
    (∀ inv2 : Invoice, inv2.vendor_abn = none → abnWarningList inv2 = []) ∧
    (∀ inv3 : Invoice, inv3.vendor_abn = some "" → abnWarningList inv3 = []) := by
  refine ⟨?_, abnMsg_not_mem_issues v inv abn, ?_, ?_⟩
  · rw [abnWarningList, h]
    by_cases h11 : (abn.data.filter Char.isDigit).length = 11 <;> simp [hne, h11]
  · intro inv2 h2
    rw [abnWarningList, h2]
  · intro inv3 h3
    rw [abnWarningList, h3]
    rfl

/-- C8 witness: "12 345 678 901" yields no warning; "123" yields exactly the
ABN warning, which is not an issue. -/
theorem claim_c8_abn_format_witness :
    abnWarningList abnGoodInvoice = [] ∧
    abnWarningList abnBadInvoice = [abnMsg "123"] ∧
    abnMsg "123" ∉ (validate ⟨[]⟩ abnBadInvoice).1.issues := by
  have hg := claim_c8_abn_format ⟨[]⟩ abnGoodInvoice "12 345 678 901" rfl (by decide)
  have hb := claim_c8_abn_format ⟨[]⟩ abnBadInvoice "123" rfl (by decide)
  refine ⟨?_, ?_, hb.2.1⟩
  · rw [hg.1, if_pos]
    decide
  · rw [hb.1, if_neg]
    decide

/-- C9: `validate` is the in-order concatenation of the nine checks'
contributions — issues from checks 1, 2, 3, 5 and 7 (per line item, in
line-item order), warnings from checks 4, 6, 7, 8 and 9 — with no
short-circuiting, validity recomputed from the issues, and the duplicate
set updated as a side effect. -/
theorem claim_c9_check_order (v : InvoiceValidator) (inv : Invoice) :
    validate v inv =
      ({ is_valid := (validateIssues v.processed_invoices inv).isEmpty,
         issues := requiredFieldIssues inv ++ duplicateIssues v.processed_invoices inv ++
           subtotalIssues inv ++ totalIssues inv ++
           inv.line_items.flatMap lineItemMathIssues,
         warnings := taxWarningList inv ++ highValueWarningList inv ++
           inv.line_items.flatMap lineItemHighWarnings ++ abnWarningList inv ++
           dateWarningList inv },
       ⟨dupRegister v.processed_invoices inv⟩) := by
  rw [validate_decomp, validateIssues, validateWarnings]

/-- C10: an empty invoice number is itself registered: the first call on two
number-less invoices reports the missing-number issue but no duplicate; the
second call reports both the missing-number issue and the DUPLICATE issue
for the empty string. -/
theorem claim_c10_empty_number_registered (v : InvoiceValidator) (inv1 inv2 : Invoice)
    (h0 : "" ∉ v.processed_invoices)
    (h1 : inv1.invoice_number = "") (h2 : inv2.invoice_number = "") :
    "Missing invoice number" ∈ (validate v inv1).1.issues ∧
    (∀ n, dupMessage n ∉ (validate v inv1).1.issues) ∧
    "" ∈ (validate v inv1).2.processed_invoices ∧
    "Missing invoice number" ∈ (validate (validate v inv1).2 inv2).1.issues ∧
    dupMessage "" ∈ (validate (validate v inv1).2 inv2).1.issues := by
  have hfresh1 : inv1.invoice_number ∉ v.processed_invoices := by rw [h1]; exact h0
  have hstate : (validate v inv1).2.processed_invoices =
      v.processed_invoices ++ [""] := by
    rw [validate_state_eq, dupRegister, if_neg hfresh1, h1]
  refine ⟨?_, fun n => dupMessage_not_mem_issues v inv1 n hfresh1, ?_, ?_, ?_⟩
  · rw [validate_issues_eq, validateIssues]
    simp only [List.mem_append]
    refine Or.inl (Or.inl (Or.inl (Or.inl ?_)))
    rw [requiredFieldIssues]
    simp [h1]
  · rw [hstate]
    simp
  · rw [validate_issues_eq, validateIssues]
    simp only [List.mem_append]
    refine Or.inl (Or.inl (Or.inl (Or.inl ?_)))
    rw [requiredFieldIssues]
    simp [h2]
  · rw [validate_issues_eq, validateIssues]
    simp only [List.mem_append]
    refine Or.inl (Or.inl (Or.inl (Or.inr ?_)))
    rw [duplicateIssues, h2, if_pos]
    · exact List.mem_singleton.mpr rfl
    · rw [hstate]
      simp

/-- C10 witness: two concrete number-less invoices validated in sequence. -/
theorem claim_c10_empty_number_registered_witness :
    "Missing invoice number" ∈ (validate ⟨[]⟩ noNumberInvoice).1.issues ∧
    dupMessage "" ∉ (validate ⟨[]⟩ noNumberInvoice).1.issues ∧
    dupMessage "" ∈
      (validate (validate ⟨[]⟩ noNumberInvoice).2 noNumberInvoice).1.issues := by
  have h := claim_c10_empty_number_registered ⟨[]⟩ noNumberInvoice noNumberInvoice
    (by decide) rfl rfl
  exact ⟨h.1, h.2.1 "", h.2.2.2.2⟩

end DocProc
